import Mathlib

/-!
Verification of the pi-roaster context-strategy scripts
(`context_strategy_observer.py` and `context_strategy_tuner.py`) against
their natural-language specification.  JSON values are embedded as `JVal`,
Python floats as rationals, Python dicts as association lists, and the
two scripts' core functions as executable Lean definitions mirroring the
source line by line.
-/

/-- A JSON value as Python's `json.loads` produces it: `null`, booleans,
numbers (ints and floats collapsed to one numeric type, embedded as `ℚ`),
strings, arrays and objects (dicts, as association lists). -/
inductive JVal where
  | null : JVal
  | bool (b : Bool) : JVal
  | num (q : ℚ) : JVal
  | str (s : String) : JVal
  | arr (elems : List JVal) : JVal
  | obj (fields : List (String × JVal)) : JVal

/-- Python `d.get(k)` on a dict: the value at the key, or `none` when absent. -/
def dictGet : List (String × JVal) → String → Option JVal
  | [], _ => none
  | (key, value) :: rest, k => if key = k then some value else dictGet rest k

/-- The numeric reading Python's `isinstance(v, (int, float))` admits:
ints and floats, and also `bool` (a subclass of `int` in Python, where
`True` counts as `1` and `False` as `0`). -/
def pyNumber : JVal → Option ℚ
  | JVal.num q => some q
  | JVal.bool b => some (if b then 1 else 0)
  | _ => none

/-- The string reading of a value: `some s` exactly when the value is a
string, matching Python's `v == "literal"` tests (false for non-strings). -/
def strVal : Option JVal → Option String
  | some (JVal.str s) => some s
  | _ => none

/-- Python `s.strip()`: drop leading and trailing whitespace. -/
def pyStrip (s : String) : String :=
  String.mk (((s.data.dropWhile Char.isWhitespace).reverse.dropWhile Char.isWhitespace).reverse)

/-- An event record: a parsed JSON object (`read_jsonl` keeps dicts only). -/
abbrev Event : Type := List (String × JVal)

/-- Observer sentinel for an undiscoverable model label. -/
def UNKNOWN_MODEL : String := "(unknown)"

/-- Observer sentinel for an undiscoverable task-class label. -/
def NONE_TASK_CLASS : String := "(none)"

/-- `read_jsonl` (observer lines 30-45): each line parses independently
(`none` marks a line that failed to parse or was blank), and only lines
that parse to a dict are kept, in file order. -/
def read_jsonl (lines : List (Option JVal)) : List Event :=
  lines.filterMap fun l =>
    match l with
    | some (JVal.obj fields) => some fields
    | _ => none

/-- The loop of `session_bucket` (observer lines 51-65) over the already
reversed event list: two accumulators starting at the sentinels, with the
early `break` once both differ from their sentinels. -/
def sessionLoop : List Event → String → String → String × String
  | [], model, task_class => (model, task_class)
  | event :: rest, model, task_class =>
    match dictGet event "payload" with
    | some (JVal.obj payload) =>
      let model1 :=
        if model = UNKNOWN_MODEL ∧ strVal (dictGet event "type") = some "cost_update" then
          match dictGet payload "model" with
          | some (JVal.str candidate) =>
            if pyStrip candidate ≠ "" then pyStrip candidate else model
          | _ => model
        else model
      let task1 :=
        if task_class = NONE_TASK_CLASS ∧ strVal (dictGet event "type") = some "skill_activated" then
          match dictGet payload "skillName" with
          | some (JVal.str candidate) =>
            if pyStrip candidate ≠ "" then pyStrip candidate else task_class
          | _ => task_class
        else task_class
      if model1 ≠ UNKNOWN_MODEL ∧ task1 ≠ NONE_TASK_CLASS then (model1, task1)
      else sessionLoop rest model1 task1
    | _ => sessionLoop rest model task_class

/-- `session_bucket` (observer lines 48-66): reverse scan with sentinels. -/
def session_bucket (events : List Event) : String × String :=
  sessionLoop events.reverse UNKNOWN_MODEL NONE_TASK_CLASS

/-- The model label a single event can contribute in `session_bucket`:
`some` of the trimmed payload `"model"` string when the event is a
`cost_update` with a dict payload whose `"model"` is a string with
non-empty trim, else `none`. -/
def modelCandidate (event : Event) : Option String :=
  match dictGet event "payload" with
  | some (JVal.obj payload) =>
    if strVal (dictGet event "type") = some "cost_update" then
      match dictGet payload "model" with
      | some (JVal.str candidate) =>
        if pyStrip candidate ≠ "" then some (pyStrip candidate) else none
      | _ => none
    else none
  | _ => none

/-- The task-class label a single event can contribute in `session_bucket`. -/
def taskCandidate (event : Event) : Option String :=
  match dictGet event "payload" with
  | some (JVal.obj payload) =>
    if strVal (dictGet event "type") = some "skill_activated" then
      match dictGet payload "skillName" with
      | some (JVal.str candidate) =>
        if pyStrip candidate ≠ "" then some (pyStrip candidate) else none
      | _ => none
    else none
  | _ => none

/-- The model label `session_bucket` actually computes: the candidate of
the most recent event whose candidate differs from the sentinel
`"(unknown)"` (a candidate equal to the sentinel leaves the field
unresolved and can be overridden by an older event), else the sentinel. -/
def specModel (events : List Event) : String :=
  (((events.reverse.filterMap modelCandidate).find? fun s => s != UNKNOWN_MODEL)).getD
    UNKNOWN_MODEL

/-- The task-class label `session_bucket` actually computes, dually. -/
def specTask (events : List Event) : String :=
  (((events.reverse.filterMap taskCandidate).find? fun s => s != NONE_TASK_CLASS)).getD
    NONE_TASK_CLASS

/-- Modelled from the claim's words (C5), for comparison with the code:
the trimmed model of the most recent cost-update event carrying a
non-empty trimmed string model field, sentinel if none. -/
def claimModel (events : List Event) : String :=
  ((events.reverse.filterMap modelCandidate).head?).getD UNKNOWN_MODEL

/-- `as_number` (observer lines 69-72): numeric values pass through,
anything else degrades to the default `0.0`. -/
def as_number (value : Option JVal) : ℚ :=
  (value.bind pyNumber).getD 0

/-- One bucket's raw counters (observer lines 78-90), all Python floats. -/
structure BucketCounters where
  plans : ℚ
  floor_unmet : ℚ
  dropped : ℚ
  injected_tokens_sum : ℚ
  injected_count : ℚ
  zone_moves : ℚ
  zone_move_tokens : ℚ
  verification_total : ℚ
  verification_pass : ℚ
deriving DecidableEq

/-- The zero-initialized counters a bucket starts from (observer lines 79-89). -/
def zeroCounters : BucketCounters :=
  { plans := 0, floor_unmet := 0, dropped := 0, injected_tokens_sum := 0,
    injected_count := 0, zone_moves := 0, zone_move_tokens := 0,
    verification_total := 0, verification_pass := 0 }

/-- The payload coercion of observer line 107: the payload when it is a
dict, else the empty dict. -/
def payloadFields (event : Event) : List (String × JVal) :=
  match dictGet event "payload" with
  | some (JVal.obj fields) => fields
  | _ => []

/-- The body of the per-event loop of `build_report` (observer lines
101-126): skip events whose timestamp is not a number or is below the
cutoff, then dispatch on the event type. -/
def applyEvent (cutoff_ms : ℚ) (bucket : BucketCounters) (event : Event) : BucketCounters :=
  match (dictGet event "timestamp").bind pyNumber with
  | none => bucket
  | some timestamp =>
    if timestamp < cutoff_ms then bucket
    else
      let event_type := strVal (dictGet event "type")
      let payload := payloadFields event
      if event_type = some "context_injected" then
        { bucket with
            plans := bucket.plans + 1,
            injected_count := bucket.injected_count + 1,
            injected_tokens_sum :=
              bucket.injected_tokens_sum + as_number (dictGet payload "sourceTokens") }
      else if event_type = some "context_injection_dropped" then
        if strVal (dictGet payload "reason") ≠ some "duplicate_content" then
          { bucket with plans := bucket.plans + 1, dropped := bucket.dropped + 1 }
        else bucket
      else if event_type = some "context_arena_floor_unmet_unrecoverable" then
        { bucket with floor_unmet := bucket.floor_unmet + 1 }
      else if event_type = some "context_arena_zone_adapted" then
        { bucket with
            zone_moves := bucket.zone_moves + 1,
            zone_move_tokens :=
              bucket.zone_move_tokens + as_number (dictGet payload "movedTokens") }
      else if event_type = some "verification_outcome_recorded" then
        { bucket with
            verification_total := bucket.verification_total + 1,
            verification_pass :=
              bucket.verification_pass +
                (if strVal (dictGet payload "outcome") = some "pass" then 1 else 0) }
      else bucket

/-- The grouped accumulator mapping of `build_report`: bucket key to counters. -/
abbrev GroupedMap : Type := List ((String × String) × BucketCounters)

/-- Dict lookup in the grouped mapping. -/
def lookupBucket : GroupedMap → (String × String) → Option BucketCounters
  | [], _ => none
  | (key, value) :: rest, k => if key = k then some value else lookupBucket rest k

/-- Store a bucket's counters: replace the key's entry when present, else
append a fresh entry (insertion order, as a Python dict). -/
def setBucket : GroupedMap → (String × String) → BucketCounters → GroupedMap
  | [], k, v => [(k, v)]
  | (key, value) :: rest, k, v =>
    if key = k then (key, v) :: rest else (key, value) :: setBucket rest k v

/-- The per-file body of `build_report` (observer lines 95-126): a file
with no events is skipped; otherwise `grouped[(model, task_class)]` first
materializes the bucket at its zero default (defaultdict semantics, even
when no event ends up counted), and every event then folds into it. -/
def processFile (cutoff_ms : ℚ) (grouped : GroupedMap) (events : List Event) : GroupedMap :=
  if events.isEmpty then grouped
  else
    let key := session_bucket events
    let start := (lookupBucket grouped key).getD zeroCounters
    setBucket grouped key (events.foldl (applyEvent cutoff_ms) start)

/-- The whole accumulation phase of `build_report` (observer lines 78-126)
over the parsed lines of each `.jsonl` file, in file order. -/
def build_grouped (cutoff_ms : ℚ) (files : List (List (Option JVal))) : GroupedMap :=
  files.foldl (fun grouped lines => processFile cutoff_ms grouped (read_jsonl lines)) []

/-- The bucket keys the report and summary document will show. -/
def groupKeys (grouped : GroupedMap) : List (String × String) :=
  grouped.map Prod.fst

/-- Python `int(x)` on a float: truncation toward zero. -/
def pyInt (q : ℚ) : Int :=
  if q < 0 then -Int.floor (-q) else Int.floor q

/-- One bucket's derived summary (observer lines 141-146 and 164-178). -/
structure BucketSummary where
  floorUnmetRate : ℚ
  injectionDroppedRate : ℚ
  avgInjectionTokens : ℚ
  zoneAdaptationMoveRatio : ℚ
  verificationPassRate : ℚ
  qualityProxy : ℚ
  samplesPlans : Int
  samplesVerification : Int

/-- The Rate Calculator (observer lines 136-146, summary fields of lines
164-178): denominators floored at 1, `qualityProxy` multiplicative. -/
def rateSummary (values : BucketCounters) : BucketSummary :=
  let plans := max 1 values.plans
  let injected_count := max 1 values.injected_count
  let verification_total := max 1 values.verification_total
  let floor_unmet_rate := values.floor_unmet / plans
  let dropped_rate := values.dropped / plans
  let avg_injection_tokens := values.injected_tokens_sum / injected_count
  let zone_move_ratio := values.zone_move_tokens / max 1 values.injected_tokens_sum
  let verification_pass_rate := values.verification_pass / verification_total
  let quality_proxy := verification_pass_rate * (1 - dropped_rate)
  { floorUnmetRate := floor_unmet_rate,
    injectionDroppedRate := dropped_rate,
    avgInjectionTokens := avg_injection_tokens,
    zoneAdaptationMoveRatio := zone_move_ratio,
    verificationPassRate := verification_pass_rate,
    qualityProxy := quality_proxy,
    samplesPlans := pyInt values.plans,
    samplesVerification := pyInt values.verification_total }

/-- Python truthiness of a JSON value, as `x or 0` tests it. -/
def pyTruthy : JVal → Bool
  | JVal.null => false
  | JVal.bool b => b
  | JVal.num q => q != 0
  | JVal.str s => s != ""
  | JVal.arr elems => !elems.isEmpty
  | JVal.obj fields => !fields.isEmpty

/-- Python `int(x)` as the tuner calls it: ints and floats truncate toward
zero, bools coerce to 0 or 1, and anything else raises.  (Python also
parses integer-literal strings; no claim exercises string-valued counts,
so a string is folded into the raising case here.) -/
def pyIntCoerce : JVal → Except String Int
  | JVal.num q => Except.ok (pyInt q)
  | JVal.bool b => Except.ok (if b then 1 else 0)
  | _ => Except.error "int() argument is not a number"

/-- Python `float(x)` as `choose_arm` calls it: numbers pass through,
bools coerce, anything else raises.  (Python also parses numeric-literal
strings; no claim exercises string-valued metrics, so a string is folded
into the raising case here.) -/
def pyFloatCoerce : JVal → Except String ℚ
  | JVal.num q => Except.ok q
  | JVal.bool b => Except.ok (if b then 1 else 0)
  | _ => Except.error "float() argument is not a number"

/-- Python `str(x)`: a string passes through; the renderings of the other
shapes never raise (their exact Python spelling is irrelevant to every
claim, which only counts entries). -/
def pyStr : JVal → String
  | JVal.str s => s
  | JVal.bool b => if b then "True" else "False"
  | JVal.null => "None"
  | JVal.num q => toString q
  | JVal.arr _ => "[...]"
  | JVal.obj _ => "<dict>"

/-- `load_json` (tuner lines 31-36): an unreadable file (outer `none`), a
JSON decode failure (inner `none`) or a non-dict top level all recover to
the empty dict. -/
def load_json (content : Option (Option JVal)) : List (String × JVal) :=
  match content with
  | some (some (JVal.obj fields)) => fields
  | _ => []

/-- `choose_arm`'s threshold rule (tuner lines 53-57) on the four
extracted metric numbers: ordered checks, first match wins. -/
def choose_arm (quality floor_unmet dropped zone_ratio : ℚ) : String :=
  if quality ≥ 0.92 ∧ floor_unmet ≤ 0.01 ∧ dropped ≤ 0.08 ∧ zone_ratio ≤ 0.02 then
    "passthrough"
  else if quality ≥ 0.88 ∧ floor_unmet ≤ 0.05 then "hybrid"
  else "managed"

/-- `choose_arm` (tuner lines 47-57) on a raw JSON bucket: the four
metric fields default to `0.0` when absent and are coerced by `float`,
whose failure propagates as an exception. -/
def choose_arm_json (bucket : List (String × JVal)) : Except String String := do
  let floor_unmet ← pyFloatCoerce ((dictGet bucket "floorUnmetRate").getD (JVal.num 0))
  let dropped ← pyFloatCoerce ((dictGet bucket "injectionDroppedRate").getD (JVal.num 0))
  let quality ← pyFloatCoerce ((dictGet bucket "qualityProxy").getD (JVal.num 0))
  let zone_ratio ← pyFloatCoerce ((dictGet bucket "zoneAdaptationMoveRatio").getD (JVal.num 0))
  Except.ok (choose_arm quality floor_unmet dropped zone_ratio)

/-- The `plans` extraction of `build_overrides` (tuner lines 71-74):
`0` when `samples` is not a dict, else `int(samples.get("plans", 0) or 0)`. -/
def plansOf (bucket : List (String × JVal)) : Except String Int :=
  match dictGet bucket "samples" with
  | some (JVal.obj samples) =>
    let value := (dictGet samples "plans").getD (JVal.num 0)
    pyIntCoerce (if pyTruthy value then value else JVal.num 0)
  | _ => Except.ok 0

/-- One override entry (tuner lines 81-91). -/
structure OverrideEntry where
  id : String
  model : String
  taskClass : String
  arm : String
  expiresAt : Int
  updatedAt : Int
  source : String
deriving DecidableEq

/-- The overrides document (tuner lines 93-97). -/
structure OverridesDoc where
  version : Int
  generatedAt : Int
  entries : List OverrideEntry
deriving DecidableEq

/-- The `buckets` extraction of `build_overrides` (tuner lines 63-65):
the `"buckets"` field when it is a list, else the empty list. -/
def bucketsOf (summary : List (String × JVal)) : List JVal :=
  match dictGet summary "buckets" with
  | some (JVal.arr buckets) => buckets
  | _ => []

/-- The `for index, bucket in enumerate(buckets)` loop of
`build_overrides` (tuner lines 68-91): non-dict buckets are skipped,
buckets below the sample-size floor of 20 plans are skipped, and any
coercion failure aborts the whole build (discarding earlier entries,
as the propagating Python exception does). -/
def buildEntriesLoop (now expires_at : Int) : Nat → List JVal → Except String (List OverrideEntry)
  | _, [] => Except.ok []
  | index, b :: rest =>
    match b with
    | JVal.obj bucket =>
      match plansOf bucket with
      | Except.error e => Except.error e
      | Except.ok plans =>
        if plans < 20 then buildEntriesLoop now expires_at (index + 1) rest
        else
          let model := let s := pyStrip (pyStr ((dictGet bucket "model").getD (JVal.str "*")))
                       if s = "" then "*" else s
          let task_class := let s := pyStrip (pyStr ((dictGet bucket "taskClass").getD (JVal.str "*")))
                            if s = "" then "*" else s
          match choose_arm_json bucket with
          | Except.error e => Except.error e
          | Except.ok arm =>
            match buildEntriesLoop now expires_at (index + 1) rest with
            | Except.error e => Except.error e
            | Except.ok entries =>
              Except.ok
                ({ id := "auto-" ++ toString (index + 1), model := model,
                   taskClass := task_class, arm := arm, expiresAt := expires_at,
                   updatedAt := now, source := "tuner" } :: entries)
    | _ => buildEntriesLoop now expires_at (index + 1) rest

/-- `build_overrides` (tuner lines 60-97): `now` is the wall-clock
timestamp in milliseconds, the TTL is floored at one hour. -/
def build_overrides (summary : List (String × JVal)) (ttl_hours now : Int) :
    Except String OverridesDoc :=
  let expires_at := now + max 1 ttl_hours * 60 * 60 * 1000
  match buildEntriesLoop now expires_at 0 (bucketsOf summary) with
  | Except.error e => Except.error e
  | Except.ok entries => Except.ok { version := 1, generatedAt := now, entries := entries }

/-- Whether a raw JSON bucket passes the sample-size floor: it is a dict
whose extracted plans count is at least 20. -/
def bucketQualifies : JVal → Bool
  | JVal.obj bucket =>
    match plansOf bucket with
    | Except.ok plans => decide (20 ≤ plans)
    | Except.error _ => false
  | _ => false

/-! ## Concrete inputs for witnesses and counterexamples, and named predicates -/

/-- Concrete zero-plans counters for the C4 witness. -/
def c4wCounters : BucketCounters := { zeroCounters with floor_unmet := 3 }

/-- Non-negative counters with two floor-unmet events and zero plans:
they refute the claimed `[0, 1]` bound for `floorUnmetRate`. -/
def c1cexCounters : BucketCounters := { zeroCounters with floor_unmet := 2 }

/-- The malformation taxonomy of the claim: unreadable file, invalid
JSON, non-mapping top level, or a mapping whose `buckets` field is not a
list. -/
def malformedSummarySource (content : Option (Option JVal)) : Prop :=
  content = none ∨ content = some none ∨
  (∃ v, content = some (some v) ∧ ∀ fields, v ≠ JVal.obj fields) ∨
  (∃ fields, content = some (some (JVal.obj fields)) ∧
    ∀ buckets, dictGet fields "buckets" ≠ some (JVal.arr buckets))

/-- A concrete summary for the C7 witness: one qualifying bucket with 20
plans and perfect quality, one bucket with only 19 plans. -/
def c7wSummary : List (String × JVal) :=
  [("buckets", JVal.arr
    [JVal.obj [("model", JVal.str "m"), ("qualityProxy", JVal.num 1),
               ("samples", JVal.obj [("plans", JVal.num 20)])],
     JVal.obj [("model", JVal.str "m"), ("qualityProxy", JVal.num 1),
               ("samples", JVal.obj [("plans", JVal.num 19)])]])]

/-- The override document the tuner produces for `c7wSummary`. -/
def c7wDoc : OverridesDoc :=
  { version := 1, generatedAt := 0,
    entries := [{ id := "auto-1", model := "m", taskClass := "*", arm := "passthrough",
                  expiresAt := 604800000, updatedAt := 0, source := "tuner" }] }

/-- Two cost-update events; the more recent one carries the model string
`"(unknown)"`, which coincides with the sentinel. -/
def c5cexEvents : List Event :=
  [[("type", JVal.str "cost_update"), ("payload", JVal.obj [("model", JVal.str "m1")])],
   [("type", JVal.str "cost_update"), ("payload", JVal.obj [("model", JVal.str "(unknown)")])]]

/-- A `context_injection_dropped` event whose payload carries
`reason = "duplicate_content"`. -/
def isDupDrop (event : Event) : Prop :=
  strVal (dictGet event "type") = some "context_injection_dropped" ∧
  strVal (dictGet (payloadFields event) "reason") = some "duplicate_content"

instance (event : Event) : Decidable (isDupDrop event) :=
  inferInstanceAs (Decidable (_ ∧ _))

/-- A log file holding exactly one duplicate-content drop event with an
in-window timestamp. -/
def c3cexLines : List (Option JVal) :=
  [some (JVal.obj [("timestamp", JVal.num 0), ("type", JVal.str "context_injection_dropped"),
                   ("payload", JVal.obj [("reason", JVal.str "duplicate_content")])])]

/-- An event with no timestamp field at all. -/
def c6wEvent : Event := [("type", JVal.str "context_injected")]

/-- A single file holding only the timestamp-free event. -/
def c6wFiles : List (List (Option JVal)) := [[some (JVal.obj c6wEvent)]]

/-- The counter-state invariant the accumulator maintains: non-negative
counters, and the three domination inequalities. -/
def CounterInv (b : BucketCounters) : Prop :=
  0 ≤ b.plans ∧ 0 ≤ b.floor_unmet ∧ 0 ≤ b.dropped ∧ 0 ≤ b.injected_count ∧
  0 ≤ b.verification_total ∧ 0 ≤ b.verification_pass ∧
  b.dropped ≤ b.plans ∧ b.injected_count ≤ b.plans ∧
  b.verification_pass ≤ b.verification_total

/-- A file with one in-window `context_injected` event worth 100 tokens. -/
def c10wFiles : List (List (Option JVal)) :=
  [[some (JVal.obj [("timestamp", JVal.num 5), ("type", JVal.str "context_injected"),
                    ("payload", JVal.obj [("sourceTokens", JVal.num 100)])])]]

/-- The counters the Observer accumulates for `c10wFiles`. -/
def c10wBucket : BucketCounters :=
  { plans := 1, floor_unmet := 0, dropped := 0, injected_tokens_sum := 100,
    injected_count := 1, zone_moves := 0, zone_move_tokens := 0,
    verification_total := 0, verification_pass := 0 }

/-! ## Helper lemmas -/

/-- A rate with a denominator floored at 1 is non-negative when its
numerator is. -/
theorem div_max_nonneg {a b : ℚ} (ha : 0 ≤ a) : 0 ≤ a / max 1 b :=
  div_nonneg ha (le_trans zero_le_one (le_max_left 1 b))

/-- A rate with a denominator floored at 1 is at most 1 when its
numerator is bounded by the un-floored denominator. -/
theorem div_max_le_one {a b : ℚ} (hab : a ≤ b) : a / max 1 b ≤ 1 := by
  rw [div_le_one (lt_of_lt_of_le zero_lt_one (le_max_left 1 b))]
  exact le_trans hab (le_max_right 1 b)

/-! ## C2: totality and order of the Strategy Decision Rule -/

/-- C2: `choose_arm` is a total pure function of the four metric numbers;
it returns `"passthrough"` exactly on the four-threshold conjunction,
else `"hybrid"` exactly on the two-threshold conjunction, else
`"managed"`, and every input yields exactly one of the three labels. -/
theorem choose_arm_total (quality floor_unmet dropped zone_ratio : ℚ) :
    (choose_arm quality floor_unmet dropped zone_ratio = "passthrough" ↔
      (quality ≥ 0.92 ∧ floor_unmet ≤ 0.01 ∧ dropped ≤ 0.08 ∧ zone_ratio ≤ 0.02)) ∧
    (choose_arm quality floor_unmet dropped zone_ratio = "hybrid" ↔
      (¬(quality ≥ 0.92 ∧ floor_unmet ≤ 0.01 ∧ dropped ≤ 0.08 ∧ zone_ratio ≤ 0.02) ∧
        (quality ≥ 0.88 ∧ floor_unmet ≤ 0.05))) ∧
    (choose_arm quality floor_unmet dropped zone_ratio = "managed" ↔
      (¬(quality ≥ 0.92 ∧ floor_unmet ≤ 0.01 ∧ dropped ≤ 0.08 ∧ zone_ratio ≤ 0.02) ∧
        ¬(quality ≥ 0.88 ∧ floor_unmet ≤ 0.05))) ∧
    (choose_arm quality floor_unmet dropped zone_ratio = "passthrough" ∨
      choose_arm quality floor_unmet dropped zone_ratio = "hybrid" ∨
      choose_arm quality floor_unmet dropped zone_ratio = "managed") := by
  have hph : ("passthrough" : String) ≠ "hybrid" := by decide
  have hpm : ("passthrough" : String) ≠ "managed" := by decide
  have hhm : ("hybrid" : String) ≠ "managed" := by decide
  unfold choose_arm
  split_ifs with h1 h2 <;> simp_all

/-! ## C9: passthrough's conditions are strictly more restrictive -/

/-- C9: any summary metrics satisfying the four passthrough thresholds
also satisfy hybrid's two thresholds, so such metrics are never
classified `"managed"`. -/
theorem passthrough_stricter (quality floor_unmet dropped zone_ratio : ℚ)
    (h1 : quality ≥ 0.92) (h2 : floor_unmet ≤ 0.01)
    (h3 : dropped ≤ 0.08) (h4 : zone_ratio ≤ 0.02) :
    (quality ≥ 0.88 ∧ floor_unmet ≤ 0.05) ∧
      choose_arm quality floor_unmet dropped zone_ratio ≠ "managed" := by
  refine ⟨⟨by linarith, by linarith⟩, ?_⟩
  unfold choose_arm
  rw [if_pos ⟨h1, h2, h3, h4⟩]
  decide

/-- Witness for C9 at the concrete metrics (1, 0, 0, 0). -/
theorem passthrough_stricter_w :
    ((1 : ℚ) ≥ 0.88 ∧ (0 : ℚ) ≤ 0.05) ∧ choose_arm 1 0 0 0 ≠ "managed" :=
  passthrough_stricter 1 0 0 0 (by norm_num) (by norm_num) (by norm_num) (by norm_num)

/-! ## C4: the exact rate formulas and the division guard -/

/-- C4: the Rate Calculator computes exactly the six advertised formulas
with denominators floored at 1; in particular a bucket with zero
plan-events divides `floor_unmet` by 1 (total, no division error). -/
theorem rate_formulas (v : BucketCounters) :
    (rateSummary v).floorUnmetRate = v.floor_unmet / max 1 v.plans ∧
    (rateSummary v).injectionDroppedRate = v.dropped / max 1 v.plans ∧
    (rateSummary v).avgInjectionTokens = v.injected_tokens_sum / max 1 v.injected_count ∧
    (rateSummary v).zoneAdaptationMoveRatio = v.zone_move_tokens / max 1 v.injected_tokens_sum ∧
    (rateSummary v).verificationPassRate = v.verification_pass / max 1 v.verification_total ∧
    (rateSummary v).qualityProxy =
      (rateSummary v).verificationPassRate * (1 - (rateSummary v).injectionDroppedRate) ∧
    (v.plans = 0 → (rateSummary v).floorUnmetRate = v.floor_unmet / 1) := by
  refine ⟨rfl, rfl, rfl, rfl, rfl, rfl, fun h => ?_⟩
  show v.floor_unmet / max 1 v.plans = v.floor_unmet / 1
  rw [h]
  norm_num

/-- Witness for C4: a bucket with zero plans and three floor-unmet events
yields `floorUnmetRate = floor_unmet / 1`. -/
theorem rate_formulas_w :
    (rateSummary c4wCounters).floorUnmetRate = c4wCounters.floor_unmet / 1 :=
  (rate_formulas c4wCounters).2.2.2.2.2.2 rfl

/-! ## C1: bounds of the summary fields -/

/-- Counterexample to C1 as stated: all raw counters of
`c1cexCounters` are non-negative, yet `floorUnmetRate` exceeds 1
(floor-unmet events do not increment `plans`, so the rate is 2/1). -/
theorem rate_bounds_cex :
    (0 ≤ c1cexCounters.plans ∧ 0 ≤ c1cexCounters.floor_unmet ∧
     0 ≤ c1cexCounters.dropped ∧ 0 ≤ c1cexCounters.injected_tokens_sum ∧
     0 ≤ c1cexCounters.injected_count ∧ 0 ≤ c1cexCounters.zone_moves ∧
     0 ≤ c1cexCounters.zone_move_tokens ∧ 0 ≤ c1cexCounters.verification_total ∧
     0 ≤ c1cexCounters.verification_pass) ∧
    ¬ (rateSummary c1cexCounters).floorUnmetRate ≤ 1 := by
  constructor
  · refine ⟨?_, ?_, ?_, ?_, ?_, ?_, ?_, ?_, ?_⟩ <;> norm_num [c1cexCounters, zeroCounters]
  · show ¬ ((2 : ℚ) / max 1 0 ≤ 1)
    norm_num

/-- C1 amended: with non-negative raw counters and the accumulator-shaped
bounds `dropped ≤ plans` and `verificationPass ≤ verificationTotal`,
`qualityProxy`, `injectionDroppedRate` and `verificationPassRate` lie in
`[0, 1]`, while `floorUnmetRate`, `zoneAdaptationMoveRatio` and
`avgInjectionTokens` are non-negative (but not bounded by 1). -/
theorem rate_bounds_amended (v : BucketCounters)
    (hp : 0 ≤ v.plans) (hfu : 0 ≤ v.floor_unmet) (hd : 0 ≤ v.dropped)
    (hts : 0 ≤ v.injected_tokens_sum) (hic : 0 ≤ v.injected_count)
    (hzt : 0 ≤ v.zone_move_tokens) (hvp : 0 ≤ v.verification_pass)
    (hdp : v.dropped ≤ v.plans) (hpv : v.verification_pass ≤ v.verification_total) :
    (0 ≤ (rateSummary v).qualityProxy ∧ (rateSummary v).qualityProxy ≤ 1) ∧
    (0 ≤ (rateSummary v).injectionDroppedRate ∧ (rateSummary v).injectionDroppedRate ≤ 1) ∧
    (0 ≤ (rateSummary v).verificationPassRate ∧ (rateSummary v).verificationPassRate ≤ 1) ∧
    0 ≤ (rateSummary v).floorUnmetRate ∧
    0 ≤ (rateSummary v).zoneAdaptationMoveRatio ∧
    0 ≤ (rateSummary v).avgInjectionTokens := by
  have hdr0 : 0 ≤ v.dropped / max 1 v.plans := div_max_nonneg hd
  have hdr1 : v.dropped / max 1 v.plans ≤ 1 := div_max_le_one hdp
  have hvr0 : 0 ≤ v.verification_pass / max 1 v.verification_total := div_max_nonneg hvp
  have hvr1 : v.verification_pass / max 1 v.verification_total ≤ 1 := div_max_le_one hpv
  refine ⟨⟨?_, ?_⟩, ⟨hdr0, hdr1⟩, ⟨hvr0, hvr1⟩, div_max_nonneg hfu, div_max_nonneg hzt,
    div_max_nonneg hts⟩
  · exact mul_nonneg hvr0 (by linarith)
  · show v.verification_pass / max 1 v.verification_total *
      (1 - v.dropped / max 1 v.plans) ≤ 1
    nlinarith

/-! ## C8: malformed prior summary documents recover as empty -/

/-- C8: every malformed prior summary document loads as an empty
structure and the override build completes without an error, producing a
well-formed document with zero entries. -/
theorem malformed_summary_recovery (content : Option (Option JVal)) (ttl_hours now : Int)
    (h : malformedSummarySource content) :
    build_overrides (load_json content) ttl_hours now =
      Except.ok { version := 1, generatedAt := now, entries := [] } := by
  have hb0 : bucketsOf (load_json content) = [] := by
    rcases h with h | h | ⟨v, hc, hv⟩ | ⟨fields, hc, hb⟩
    · subst h; rfl
    · subst h; rfl
    · subst hc
      cases v with
      | obj fields => exact absurd rfl (hv fields)
      | null => rfl
      | bool b => rfl
      | num q => rfl
      | str s => rfl
      | arr elems => rfl
    · subst hc
      show bucketsOf fields = []
      unfold bucketsOf
      cases hd : dictGet fields "buckets" with
      | none => rfl
      | some v =>
        cases v with
        | arr buckets => exact absurd hd (hb buckets)
        | null => rfl
        | bool b => rfl
        | num q => rfl
        | str s => rfl
        | obj f => rfl
  unfold build_overrides
  rw [hb0]
  rfl

/-- Witness for C8: a summary file holding invalid JSON. -/
theorem malformed_summary_recovery_w :
    build_overrides (load_json (some none)) 168 0 =
      Except.ok { version := 1, generatedAt := 0, entries := [] } :=
  malformed_summary_recovery (some none) 168 0 (Or.inr (Or.inl rfl))

/-! ## C7: the sample-size floor of the Override Builder -/

/-- When the override loop completes, it has produced exactly one entry
per bucket passing the 20-plans sample floor. -/
theorem buildEntriesLoop_length (now expires_at : Int) :
    ∀ (buckets : List JVal) (index : Nat) (entries : List OverrideEntry),
      buildEntriesLoop now expires_at index buckets = Except.ok entries →
      entries.length = buckets.countP bucketQualifies := by
  intro buckets
  induction buckets with
  | nil =>
    intro index entries h
    simp only [buildEntriesLoop] at h
    cases h
    rfl
  | cons b rest ih =>
    intro index entries h
    cases b with
    | obj bucket =>
      simp only [buildEntriesLoop] at h
      split at h
      · cases h
      · rename_i plans hp
        split at h
        · rename_i hlt
          have hq : bucketQualifies (JVal.obj bucket) = false := by
            simp only [bucketQualifies, hp]
            simp
            omega
          simp [List.countP_cons, hq, ih _ _ h]
        · rename_i hlt
          split at h
          · cases h
          · rename_i arm hc
            split at h
            · cases h
            · rename_i es hrest
              cases h
              have hq : bucketQualifies (JVal.obj bucket) = true := by
                simp only [bucketQualifies, hp]
                simp
                omega
              simp [List.countP_cons, hq, ih _ _ hrest]
    | null =>
      simp only [buildEntriesLoop] at h
      simp [List.countP_cons, bucketQualifies, ih _ _ h]
    | bool x =>
      simp only [buildEntriesLoop] at h
      simp [List.countP_cons, bucketQualifies, ih _ _ h]
    | num q =>
      simp only [buildEntriesLoop] at h
      simp [List.countP_cons, bucketQualifies, ih _ _ h]
    | str s =>
      simp only [buildEntriesLoop] at h
      simp [List.countP_cons, bucketQualifies, ih _ _ h]
    | arr elems =>
      simp only [buildEntriesLoop] at h
      simp [List.countP_cons, bucketQualifies, ih _ _ h]

/-- C7: a completed override build emits exactly one entry per bucket
whose `samples.plans` is at least 20 and none for the buckets below the
floor. -/
theorem sample_floor (summary : List (String × JVal)) (ttl_hours now : Int)
    (doc : OverridesDoc) (h : build_overrides summary ttl_hours now = Except.ok doc) :
    doc.entries.length = (bucketsOf summary).countP bucketQualifies := by
  simp only [build_overrides] at h
  split at h
  · cases h
  · rename_i entries2 hb
    cases h
    exact buildEntriesLoop_length now _ (bucketsOf summary) 0 entries2 hb

/-- Witness for C7: on `c7wSummary` the build succeeds, the plans-20
bucket yields its entry and the plans-19 bucket yields none, so exactly
one entry comes out. -/
theorem sample_floor_w :
    c7wDoc.entries.length = (bucketsOf c7wSummary).countP bucketQualifies ∧
      c7wDoc.entries.length = 1 :=
  ⟨sample_floor c7wSummary 168 0 c7wDoc (by
      simp [build_overrides, buildEntriesLoop, bucketsOf, c7wSummary, plansOf, pyIntCoerce,
        pyTruthy, pyInt, choose_arm_json, pyFloatCoerce, choose_arm, dictGet, pyStr, c7wDoc,
        Except.bind, bind, pyStrip]
      norm_num
      rfl), rfl⟩

/-! ## Session attribution: characterizing the reverse scan -/

/-- The model accumulator update of one loop iteration, for any event
type and payload: equal to resolving via the candidate while the
accumulator still holds the sentinel. -/
theorem model_update_eq (etype : Option String) (payload : List (String × JVal)) (m : String) :
    (if m = UNKNOWN_MODEL ∧ etype = some "cost_update" then
       match dictGet payload "model" with
       | some (JVal.str candidate) =>
         if pyStrip candidate ≠ "" then pyStrip candidate else m
       | _ => m
     else m) =
    (if m = UNKNOWN_MODEL then
       (if etype = some "cost_update" then
          match dictGet payload "model" with
          | some (JVal.str candidate) =>
            if pyStrip candidate ≠ "" then some (pyStrip candidate) else none
          | _ => none
        else none).getD m
     else m) := by
  by_cases hm : m = UNKNOWN_MODEL
  · by_cases hty : etype = some "cost_update"
    · simp only [hm, hty, true_and, if_true]
      cases hmm : dictGet payload "model" with
      | none => simp
      | some v =>
        cases v with
        | str candidate => by_cases hc : pyStrip candidate = "" <;> simp [hc]
        | null => simp
        | bool b => simp
        | num q => simp
        | arr elems => simp
        | obj fields => simp
    · simp [hm, hty]
  · simp [hm]

/-- The task-class accumulator update of one loop iteration, dually. -/
theorem task_update_eq (etype : Option String) (payload : List (String × JVal)) (t : String) :
    (if t = NONE_TASK_CLASS ∧ etype = some "skill_activated" then
       match dictGet payload "skillName" with
       | some (JVal.str candidate) =>
         if pyStrip candidate ≠ "" then pyStrip candidate else t
       | _ => t
     else t) =
    (if t = NONE_TASK_CLASS then
       (if etype = some "skill_activated" then
          match dictGet payload "skillName" with
          | some (JVal.str candidate) =>
            if pyStrip candidate ≠ "" then some (pyStrip candidate) else none
          | _ => none
        else none).getD t
     else t) := by
  by_cases ht : t = NONE_TASK_CLASS
  · by_cases hty : etype = some "skill_activated"
    · simp only [ht, hty, true_and, if_true]
      cases hmm : dictGet payload "skillName" with
      | none => simp
      | some v =>
        cases v with
        | str candidate => by_cases hc : pyStrip candidate = "" <;> simp [hc]
        | null => simp
        | bool b => simp
        | num q => simp
        | arr elems => simp
        | obj fields => simp
    · simp [ht, hty]
  · simp [ht]

/-- `modelCandidate` of an event with a dict payload, unfolded. -/
theorem modelCandidate_obj (e : Event) (payload : List (String × JVal))
    (hp : dictGet e "payload" = some (JVal.obj payload)) :
    modelCandidate e =
      (if strVal (dictGet e "type") = some "cost_update" then
         match dictGet payload "model" with
         | some (JVal.str candidate) =>
           if pyStrip candidate ≠ "" then some (pyStrip candidate) else none
         | _ => none
       else none) := by
  simp [modelCandidate, hp]

/-- `taskCandidate` of an event with a dict payload, unfolded. -/
theorem taskCandidate_obj (e : Event) (payload : List (String × JVal))
    (hp : dictGet e "payload" = some (JVal.obj payload)) :
    taskCandidate e =
      (if strVal (dictGet e "type") = some "skill_activated" then
         match dictGet payload "skillName" with
         | some (JVal.str candidate) =>
           if pyStrip candidate ≠ "" then some (pyStrip candidate) else none
         | _ => none
       else none) := by
  simp [taskCandidate, hp]

/-- An event whose payload is not a dict has no model candidate. -/
theorem modelCandidate_not_obj (e : Event)
    (hp : ∀ payload, dictGet e "payload" ≠ some (JVal.obj payload)) :
    modelCandidate e = none := by
  unfold modelCandidate
  cases hd : dictGet e "payload" with
  | none => rfl
  | some v =>
    cases v with
    | obj payload => exact absurd hd (hp payload)
    | null => rfl
    | bool b => rfl
    | num q => rfl
    | str s => rfl
    | arr elems => rfl

/-- An event whose payload is not a dict has no task-class candidate. -/
theorem taskCandidate_not_obj (e : Event)
    (hp : ∀ payload, dictGet e "payload" ≠ some (JVal.obj payload)) :
    taskCandidate e = none := by
  unfold taskCandidate
  cases hd : dictGet e "payload" with
  | none => rfl
  | some v =>
    cases v with
    | obj payload => exact absurd hd (hp payload)
    | null => rfl
    | bool b => rfl
    | num q => rfl
    | str s => rfl
    | arr elems => rfl

/-- The reverse-scan loop computes, for each label independently: keep a
non-sentinel accumulator; otherwise take the first candidate differing
from the sentinel, else the sentinel-or-current value. -/
theorem sessionLoop_spec : ∀ (l : List Event) (m t : String),
    sessionLoop l m t =
      ((if m = UNKNOWN_MODEL then
          ((l.filterMap modelCandidate).find? fun s => s != UNKNOWN_MODEL).getD UNKNOWN_MODEL
        else m),
       (if t = NONE_TASK_CLASS then
          ((l.filterMap taskCandidate).find? fun s => s != NONE_TASK_CLASS).getD NONE_TASK_CLASS
        else t)) := by
  intro l
  induction l with
  | nil =>
    intro m t
    simp only [sessionLoop, List.filterMap_nil, List.find?_nil, Option.getD_none, Prod.mk.injEq]
    constructor <;> split <;> simp_all
  | cons e rest ih =>
    intro m t
    cases hp : dictGet e "payload" with
    | some v =>
      cases v with
      | obj payload =>
        simp only [sessionLoop, hp]
        rw [model_update_eq (strVal (dictGet e "type")) payload m,
            task_update_eq (strVal (dictGet e "type")) payload t,
            ← modelCandidate_obj e payload hp, ← taskCandidate_obj e payload hp]
        by_cases hm : m = UNKNOWN_MODEL
        · by_cases ht : t = NONE_TASK_CLASS
          · cases hmc : modelCandidate e with
            | none =>
              cases htc : taskCandidate e with
              | none => simp [hm, ht, ih, List.filterMap_cons, hmc, htc]
              | some c =>
                by_cases hcN : c = NONE_TASK_CLASS
                · simp [hm, ht, hcN, ih, List.filterMap_cons, hmc, htc]
                · simp [hm, ht, hcN, ih, List.filterMap_cons, hmc, htc,
                    List.find?_cons, bne_iff_ne]
            | some c =>
              cases htc : taskCandidate e with
              | none =>
                by_cases hcU : c = UNKNOWN_MODEL
                · simp [hm, ht, hcU, ih, List.filterMap_cons, hmc, htc]
                · simp [hm, ht, hcU, ih, List.filterMap_cons, hmc, htc,
                    List.find?_cons, bne_iff_ne]
              | some d =>
                by_cases hcU : c = UNKNOWN_MODEL <;> by_cases hdN : d = NONE_TASK_CLASS <;>
                  simp [hm, ht, hcU, hdN, ih, List.filterMap_cons, hmc, htc,
                    List.find?_cons, bne_iff_ne]
          · cases hmc : modelCandidate e with
            | none => simp [hm, ht, ih, List.filterMap_cons, hmc]
            | some c =>
              by_cases hcU : c = UNKNOWN_MODEL
              · simp [hm, ht, hcU, ih, List.filterMap_cons, hmc]
              · simp [hm, ht, hcU, ih, List.filterMap_cons, hmc,
                  List.find?_cons, bne_iff_ne]
        · by_cases ht : t = NONE_TASK_CLASS
          · cases htc : taskCandidate e with
            | none => simp [hm, ht, ih, List.filterMap_cons, htc]
            | some d =>
              by_cases hdN : d = NONE_TASK_CLASS
              · simp [hm, ht, hdN, ih, List.filterMap_cons, htc]
              · simp [hm, ht, hdN, ih, List.filterMap_cons, htc,
                  List.find?_cons, bne_iff_ne]
          · simp [hm, ht, ih]
      | null =>
        simp only [sessionLoop, hp]
        rw [ih m t,
          List.filterMap_cons_none (modelCandidate_not_obj e (by simp [hp])),
          List.filterMap_cons_none (taskCandidate_not_obj e (by simp [hp]))]
      | bool b =>
        simp only [sessionLoop, hp]
        rw [ih m t,
          List.filterMap_cons_none (modelCandidate_not_obj e (by simp [hp])),
          List.filterMap_cons_none (taskCandidate_not_obj e (by simp [hp]))]
      | num q =>
        simp only [sessionLoop, hp]
        rw [ih m t,
          List.filterMap_cons_none (modelCandidate_not_obj e (by simp [hp])),
          List.filterMap_cons_none (taskCandidate_not_obj e (by simp [hp]))]
      | str s =>
        simp only [sessionLoop, hp]
        rw [ih m t,
          List.filterMap_cons_none (modelCandidate_not_obj e (by simp [hp])),
          List.filterMap_cons_none (taskCandidate_not_obj e (by simp [hp]))]
      | arr elems =>
        simp only [sessionLoop, hp]
        rw [ih m t,
          List.filterMap_cons_none (modelCandidate_not_obj e (by simp [hp])),
          List.filterMap_cons_none (taskCandidate_not_obj e (by simp [hp]))]
    | none =>
      simp only [sessionLoop, hp]
      rw [ih m t,
        List.filterMap_cons_none (modelCandidate_not_obj e (by simp [hp])),
        List.filterMap_cons_none (taskCandidate_not_obj e (by simp [hp]))]

/-- The Session Attributor equals its break-free characterization. -/
theorem session_bucket_eq_spec (events : List Event) :
    session_bucket events = (specModel events, specTask events) := by
  unfold session_bucket specModel specTask
  rw [sessionLoop_spec]
  simp

/-! ## C5: the Session Attributor's result -/

/-- Counterexample to C5 as stated: the most recent cost-update event of
`c5cexEvents` has the non-empty trimmed model string `"(unknown)"`, yet
`session_bucket` returns the older event's `"m1"` — the resolved flag
compares against the sentinel value, so a sentinel-valued candidate does
not stop the scan. -/
theorem session_attribution_cex :
    claimModel c5cexEvents = "(unknown)" ∧ (session_bucket c5cexEvents).1 = "m1" ∧
      ("m1" : String) ≠ "(unknown)" := by
  refine ⟨by rfl, by rfl, by decide⟩

/-- C5 amended: `session_bucket` returns the trimmed model of the most
recent cost-update event whose payload is a dict with a non-empty trimmed
string model field different from the sentinel `"(unknown)"` (sentinel if
none), and dually the task class with sentinel `"(none)"`; the reverse
scan's resolved flags and short-circuit do not change this result. -/
theorem session_attribution_amended (events : List Event) :
    session_bucket events = (specModel events, specTask events) :=
  session_bucket_eq_spec events

/-! ## C3: duplicate-content drop events -/

/-- A duplicate-content drop event changes no counter. -/
theorem applyEvent_dup (cutoff_ms : ℚ) (bucket : BucketCounters) (event : Event)
    (h : isDupDrop event) : applyEvent cutoff_ms bucket event = bucket := by
  obtain ⟨h1, h2⟩ := h
  unfold applyEvent
  cases hts : (dictGet event "timestamp").bind pyNumber with
  | none => rfl
  | some timestamp => simp [h1, h2]

/-- A fold over duplicate-content drop events leaves the counters alone. -/
theorem foldl_applyEvent_dup (cutoff_ms : ℚ) :
    ∀ (events : List Event) (bucket : BucketCounters),
      (∀ e ∈ events, isDupDrop e) →
      events.foldl (applyEvent cutoff_ms) bucket = bucket := by
  intro events
  induction events with
  | nil => intro b _; rfl
  | cons e rest ih =>
    intro b h
    rw [List.foldl_cons, applyEvent_dup cutoff_ms b e (h e (List.mem_cons_self e rest))]
    exact ih b fun x hx => h x (List.mem_cons_of_mem e hx)

/-- A duplicate-content drop event contributes no model candidate. -/
theorem modelCandidate_dup (event : Event) (h : isDupDrop event) :
    modelCandidate event = none := by
  cases hd : dictGet event "payload" with
  | none => exact modelCandidate_not_obj event (by simp [hd])
  | some v =>
    cases v with
    | obj payload =>
      rw [modelCandidate_obj event payload hd, if_neg]
      intro hty
      exact absurd (h.1.symm.trans hty) (by decide)
    | null => exact modelCandidate_not_obj event (by simp [hd])
    | bool b => exact modelCandidate_not_obj event (by simp [hd])
    | num q => exact modelCandidate_not_obj event (by simp [hd])
    | str s => exact modelCandidate_not_obj event (by simp [hd])
    | arr elems => exact modelCandidate_not_obj event (by simp [hd])

/-- A duplicate-content drop event contributes no task-class candidate. -/
theorem taskCandidate_dup (event : Event) (h : isDupDrop event) :
    taskCandidate event = none := by
  cases hd : dictGet event "payload" with
  | none => exact taskCandidate_not_obj event (by simp [hd])
  | some v =>
    cases v with
    | obj payload =>
      rw [taskCandidate_obj event payload hd, if_neg]
      intro hty
      exact absurd (h.1.symm.trans hty) (by decide)
    | null => exact taskCandidate_not_obj event (by simp [hd])
    | bool b => exact taskCandidate_not_obj event (by simp [hd])
    | num q => exact taskCandidate_not_obj event (by simp [hd])
    | str s => exact taskCandidate_not_obj event (by simp [hd])
    | arr elems => exact taskCandidate_not_obj event (by simp [hd])

/-- Counterexample to C3 as stated: a log file containing only
duplicate-content drop events does create a bucket entry — the grouped
mapping materializes the session's key with all-zero counters as soon as
the file has any event, and the key shows up in the report and summary. -/
theorem dup_drop_cex :
    (∀ e ∈ read_jsonl c3cexLines, isDupDrop e) ∧
      groupKeys (build_grouped 0 [c3cexLines]) = [(UNKNOWN_MODEL, NONE_TASK_CLASS)] := by
  constructor
  · intro e he
    simp only [read_jsonl, c3cexLines, List.filterMap_cons, List.filterMap_nil] at he
    simp only [List.mem_singleton] at he
    subst he
    exact ⟨rfl, rfl⟩
  · rfl

/-- C3 amended: a duplicate-content drop event increments no counter of
its bucket, and a log file containing only such events still creates one
bucket entry — under the sentinel key, with all counters zero (rather
than no entry at all). -/
theorem dup_drop_amended :
    (∀ (cutoff_ms : ℚ) (bucket : BucketCounters) (event : Event), isDupDrop event →
        applyEvent cutoff_ms bucket event = bucket) ∧
    (∀ (cutoff_ms : ℚ) (lines : List (Option JVal)), read_jsonl lines ≠ [] →
        (∀ e ∈ read_jsonl lines, isDupDrop e) →
        build_grouped cutoff_ms [lines] = [((UNKNOWN_MODEL, NONE_TASK_CLASS), zeroCounters)]) := by
  constructor
  · exact fun cutoff_ms bucket event h => applyEvent_dup cutoff_ms bucket event h
  · intro cutoff_ms lines hne hdup
    unfold build_grouped
    rw [List.foldl_cons, List.foldl_nil]
    unfold processFile
    rw [if_neg (by simpa [List.isEmpty_iff] using hne)]
    have hkey : session_bucket (read_jsonl lines) = (UNKNOWN_MODEL, NONE_TASK_CLASS) := by
      rw [session_bucket_eq_spec]
      unfold specModel specTask
      rw [List.filterMap_eq_nil.mpr
            fun e he => modelCandidate_dup e (hdup e (List.mem_reverse.mp he)),
          List.filterMap_eq_nil.mpr
            fun e he => taskCandidate_dup e (hdup e (List.mem_reverse.mp he))]
      rfl
    show setBucket [] (session_bucket (read_jsonl lines))
        ((read_jsonl lines).foldl (applyEvent cutoff_ms)
          ((lookupBucket [] (session_bucket (read_jsonl lines))).getD zeroCounters)) =
      [((UNKNOWN_MODEL, NONE_TASK_CLASS), zeroCounters)]
    rw [hkey]
    show setBucket [] (UNKNOWN_MODEL, NONE_TASK_CLASS)
        ((read_jsonl lines).foldl (applyEvent cutoff_ms) zeroCounters) = _
    rw [foldl_applyEvent_dup cutoff_ms (read_jsonl lines) zeroCounters hdup]
    rfl

/-- Witness for C3 amended, at the concrete one-event dup-drop file. -/
theorem dup_drop_amended_w :
    applyEvent 0 zeroCounters (read_jsonl c3cexLines).head! = zeroCounters ∧
      build_grouped 0 [c3cexLines] = [((UNKNOWN_MODEL, NONE_TASK_CLASS), zeroCounters)] :=
  ⟨dup_drop_amended.1 0 zeroCounters (read_jsonl c3cexLines).head! ⟨rfl, rfl⟩,
   dup_drop_amended.2 0 c3cexLines (List.cons_ne_nil _ _) (by decide)⟩

/-! ## C6: the time filter applies to counting but not to attribution -/

/-- Keys after storing a bucket: unchanged when the key exists, appended
otherwise. -/
theorem keys_setBucket : ∀ (g : GroupedMap) (k : String × String) (v : BucketCounters),
    groupKeys (setBucket g k v) =
      if k ∈ groupKeys g then groupKeys g else groupKeys g ++ [k] := by
  intro g
  induction g with
  | nil => intro k v; simp [setBucket, groupKeys]
  | cons p rest ih =>
    intro k v
    obtain ⟨k0, v0⟩ := p
    by_cases hk : k0 = k
    · subst hk
      simp [setBucket, groupKeys]
    · rw [show setBucket ((k0, v0) :: rest) k v = (k0, v0) :: setBucket rest k v from by
          simp [setBucket, hk],
        show groupKeys ((k0, v0) :: setBucket rest k v) = k0 :: groupKeys (setBucket rest k v)
          from rfl,
        ih k v,
        show groupKeys ((k0, v0) :: rest) = k0 :: groupKeys rest from rfl]
      by_cases hm : k ∈ groupKeys rest
      · rw [if_pos hm, if_pos (List.mem_cons_of_mem _ hm)]
      · have hnotin : k ∉ k0 :: groupKeys rest := by
          rw [List.mem_cons]
          rintro (h | h)
          · exact hk h.symm
          · exact hm h
        rw [if_neg hm, if_neg hnotin]
        simp

/-- Keys after processing one file: the session's key is inserted (if the
file has any event), independently of the cutoff. -/
theorem keys_processFile (cutoff_ms : ℚ) (g : GroupedMap) (events : List Event) :
    groupKeys (processFile cutoff_ms g events) =
      if events.isEmpty then groupKeys g
      else if session_bucket events ∈ groupKeys g then groupKeys g
      else groupKeys g ++ [session_bucket events] := by
  unfold processFile
  by_cases he : events.isEmpty
  · simp [he]
  · simp only [he, Bool.false_eq_true, if_false]
    rw [keys_setBucket]

/-- The bucket keys of the grouped mapping do not depend on the cutoff. -/
theorem keys_build_grouped_aux (c1 c2 : ℚ) :
    ∀ (files : List (List (Option JVal))) (g1 g2 : GroupedMap),
      groupKeys g1 = groupKeys g2 →
      groupKeys (files.foldl (fun g lines => processFile c1 g (read_jsonl lines)) g1) =
      groupKeys (files.foldl (fun g lines => processFile c2 g (read_jsonl lines)) g2) := by
  intro files
  induction files with
  | nil => intro g1 g2 h; simpa using h
  | cons f rest ih =>
    intro g1 g2 h
    rw [List.foldl_cons, List.foldl_cons]
    apply ih
    rw [keys_processFile, keys_processFile, h]

/-- C6: an event with a missing, non-numeric or below-cutoff timestamp
changes no counter, while the set of bucket keys (the attribution of each
session) is the same for every cutoff — attribution is not time-filtered. -/
theorem time_filter_counting (cutoff_ms cutoff2_ms : ℚ) :
    (∀ (bucket : BucketCounters) (event : Event),
        (∀ q, (dictGet event "timestamp").bind pyNumber = some q → q < cutoff_ms) →
        applyEvent cutoff_ms bucket event = bucket) ∧
    (∀ files : List (List (Option JVal)),
        groupKeys (build_grouped cutoff_ms files) = groupKeys (build_grouped cutoff2_ms files)) := by
  constructor
  · intro bucket event h
    unfold applyEvent
    cases hts : (dictGet event "timestamp").bind pyNumber with
    | none => rfl
    | some q => simp [h q hts]
  · intro files
    exact keys_build_grouped_aux cutoff_ms cutoff2_ms files [] [] rfl

/-- Witness for C6: the timestamp-free event is not counted, and the
bucket keys agree across two different cutoffs. -/
theorem time_filter_counting_w :
    applyEvent 5 zeroCounters c6wEvent = zeroCounters ∧
      groupKeys (build_grouped 5 c6wFiles) = groupKeys (build_grouped 99 c6wFiles) :=
  ⟨(time_filter_counting 5 99).1 zeroCounters c6wEvent
      (by intro q h; simp [c6wEvent, dictGet] at h),
   (time_filter_counting 5 99).2 c6wFiles⟩

/-! ## C10: reachable-state invariants of the Metric Accumulator -/

/-- The zero counters satisfy the invariant. -/
theorem counterInv_zero : CounterInv zeroCounters := by
  refine ⟨?_, ?_, ?_, ?_, ?_, ?_, ?_, ?_, ?_⟩ <;> norm_num [zeroCounters]

/-- One accumulator step preserves the invariant. -/
theorem applyEvent_inv (cutoff_ms : ℚ) (b : BucketCounters) (e : Event)
    (h : CounterInv b) : CounterInv (applyEvent cutoff_ms b e) := by
  obtain ⟨p, fu, dr, its, ic, zm, zmt, vt, vp⟩ := b
  obtain ⟨h1, h2, h3, h4, h5, h6, h7, h8, h9⟩ := h
  cases hts : (dictGet e "timestamp").bind pyNumber with
  | none =>
    simp only [applyEvent, hts]
    exact ⟨h1, h2, h3, h4, h5, h6, h7, h8, h9⟩
  | some ts =>
    simp only [applyEvent, hts]
    unfold CounterInv
    split_ifs <;> refine ⟨?_, ?_, ?_, ?_, ?_, ?_, ?_, ?_, ?_⟩ <;> dsimp only <;> linarith

/-- Folding any event list preserves the invariant. -/
theorem foldl_applyEvent_inv (cutoff_ms : ℚ) :
    ∀ (events : List Event) (b : BucketCounters),
      CounterInv b → CounterInv (events.foldl (applyEvent cutoff_ms) b) := by
  intro events
  induction events with
  | nil => intro b h; exact h
  | cons e rest ih =>
    intro b h
    rw [List.foldl_cons]
    exact ih _ (applyEvent_inv cutoff_ms b e h)

/-- A successful mapping lookup comes from a mapping entry. -/
theorem lookupBucket_mem : ∀ (g : GroupedMap) (k : String × String) (b : BucketCounters),
    lookupBucket g k = some b → (k, b) ∈ g := by
  intro g
  induction g with
  | nil => intro k b h; cases h
  | cons p rest ih =>
    intro k b h
    obtain ⟨k0, v0⟩ := p
    by_cases hk : k0 = k
    · subst hk
      simp only [lookupBucket, if_true, eq_self_iff_true, Option.some.injEq] at h
      subst h
      exact List.mem_cons_self _ _
    · simp only [lookupBucket, if_neg hk] at h
      exact List.mem_cons_of_mem _ (ih k b h)

/-- Membership after storing a bucket: an old entry or the stored value. -/
theorem mem_setBucket : ∀ (g : GroupedMap) (k : String × String) (v : BucketCounters)
    (k2 : String × String) (b : BucketCounters),
    (k2, b) ∈ setBucket g k v → (k2, b) ∈ g ∨ b = v := by
  intro g
  induction g with
  | nil =>
    intro k v k2 b h
    simp only [setBucket, List.mem_singleton, Prod.mk.injEq] at h
    exact Or.inr h.2
  | cons p rest ih =>
    intro k v k2 b h
    obtain ⟨k0, v0⟩ := p
    by_cases hk : k0 = k
    · simp only [setBucket, if_pos hk] at h
      rcases List.mem_cons.mp h with h | h
      · simp only [Prod.mk.injEq] at h
        exact Or.inr h.2
      · exact Or.inl (List.mem_cons_of_mem _ h)
    · simp only [setBucket, if_neg hk] at h
      rcases List.mem_cons.mp h with h | h
      · exact Or.inl (List.mem_cons.mpr (Or.inl h))
      · rcases ih k v k2 b h with h2 | h2
        · exact Or.inl (List.mem_cons_of_mem _ h2)
        · exact Or.inr h2

/-- Membership after processing one file: an old entry, or the fold of
the file's events over the key's previous (or zero) counters. -/
theorem mem_processFile (cutoff_ms : ℚ) (g : GroupedMap) (events : List Event)
    (k : String × String) (b : BucketCounters)
    (h : (k, b) ∈ processFile cutoff_ms g events) :
    (k, b) ∈ g ∨
      b = events.foldl (applyEvent cutoff_ms)
            ((lookupBucket g (session_bucket events)).getD zeroCounters) := by
  unfold processFile at h
  by_cases he : events.isEmpty
  · rw [if_pos he] at h
    exact Or.inl h
  · rw [if_neg he] at h
    exact mem_setBucket g _ _ k b h

/-- Every bucket value of the grouped mapping satisfies the invariant. -/
theorem build_grouped_inv (cutoff_ms : ℚ) :
    ∀ (files : List (List (Option JVal))) (g : GroupedMap),
      (∀ k b, (k, b) ∈ g → CounterInv b) →
      ∀ k b, (k, b) ∈ files.foldl (fun g2 lines => processFile cutoff_ms g2 (read_jsonl lines)) g →
        CounterInv b := by
  intro files
  induction files with
  | nil => intro g hg k b h; exact hg k b h
  | cons f rest ih =>
    intro g hg k b h
    rw [List.foldl_cons] at h
    refine ih (processFile cutoff_ms g (read_jsonl f)) ?_ k b h
    intro k2 b2 hmem
    rcases mem_processFile cutoff_ms g (read_jsonl f) k2 b2 hmem with h2 | rfl
    · exact hg k2 b2 h2
    · apply foldl_applyEvent_inv
      cases hl : lookupBucket g (session_bucket (read_jsonl f)) with
      | none => exact counterInv_zero
      | some b0 => exact hg _ b0 (lookupBucket_mem g _ b0 hl)

/-- C10: every counter state reachable from zero satisfies the three
domination inequalities, and every bucket the Observer produces has
`injectionDroppedRate` and `verificationPassRate` in `[0, 1]`. -/
theorem accumulator_invariants (cutoff_ms : ℚ) :
    (∀ events : List Event,
        (events.foldl (applyEvent cutoff_ms) zeroCounters).dropped ≤
            (events.foldl (applyEvent cutoff_ms) zeroCounters).plans ∧
          (events.foldl (applyEvent cutoff_ms) zeroCounters).injected_count ≤
            (events.foldl (applyEvent cutoff_ms) zeroCounters).plans ∧
          (events.foldl (applyEvent cutoff_ms) zeroCounters).verification_pass ≤
            (events.foldl (applyEvent cutoff_ms) zeroCounters).verification_total) ∧
    (∀ (files : List (List (Option JVal))) (k : String × String) (b : BucketCounters),
        (k, b) ∈ build_grouped cutoff_ms files →
        (b.dropped ≤ b.plans ∧ b.injected_count ≤ b.plans ∧
          b.verification_pass ≤ b.verification_total) ∧
        (0 ≤ (rateSummary b).injectionDroppedRate ∧ (rateSummary b).injectionDroppedRate ≤ 1 ∧
          0 ≤ (rateSummary b).verificationPassRate ∧ (rateSummary b).verificationPassRate ≤ 1)) := by
  constructor
  · intro events
    have h := foldl_applyEvent_inv cutoff_ms events zeroCounters counterInv_zero
    exact ⟨h.2.2.2.2.2.2.1, h.2.2.2.2.2.2.2.1, h.2.2.2.2.2.2.2.2⟩
  · intro files k b hmem
    have h := build_grouped_inv cutoff_ms files [] (by intro k2 b2 h2; cases h2) k b hmem
    obtain ⟨h1, h2, h3, h4, h5, h6, h7, h8, h9⟩ := h
    exact ⟨⟨h7, h8, h9⟩,
      div_max_nonneg h3, div_max_le_one h7, div_max_nonneg h6, div_max_le_one h9⟩

/-- Witness for C10, at the one-injection file: the produced bucket obeys
the domination inequalities and its two rates lie in `[0, 1]`. -/
theorem accumulator_invariants_w :
    (c10wBucket.dropped ≤ c10wBucket.plans ∧ c10wBucket.injected_count ≤ c10wBucket.plans ∧
      c10wBucket.verification_pass ≤ c10wBucket.verification_total) ∧
    (0 ≤ (rateSummary c10wBucket).injectionDroppedRate ∧
      (rateSummary c10wBucket).injectionDroppedRate ≤ 1 ∧
      0 ≤ (rateSummary c10wBucket).verificationPassRate ∧
      (rateSummary c10wBucket).verificationPassRate ≤ 1) :=
  (accumulator_invariants 0).2 c10wFiles (UNKNOWN_MODEL, NONE_TASK_CLASS) c10wBucket
    (by
      rw [show build_grouped 0 c10wFiles = [((UNKNOWN_MODEL, NONE_TASK_CLASS), c10wBucket)] from by
        simp [build_grouped, processFile, read_jsonl, c10wFiles, session_bucket, sessionLoop,
          dictGet, strVal, applyEvent, pyNumber, payloadFields, as_number, lookupBucket,
          setBucket, zeroCounters, c10wBucket, UNKNOWN_MODEL, NONE_TASK_CLASS]]
      exact List.mem_singleton.mpr rfl)

/-- Witness for C1 amended, at the all-zero counters. -/
theorem rate_bounds_amended_w :
    (0 ≤ (rateSummary zeroCounters).qualityProxy ∧ (rateSummary zeroCounters).qualityProxy ≤ 1) ∧
    (0 ≤ (rateSummary zeroCounters).injectionDroppedRate ∧
      (rateSummary zeroCounters).injectionDroppedRate ≤ 1) ∧
    (0 ≤ (rateSummary zeroCounters).verificationPassRate ∧
      (rateSummary zeroCounters).verificationPassRate ≤ 1) ∧
    0 ≤ (rateSummary zeroCounters).floorUnmetRate ∧
    0 ≤ (rateSummary zeroCounters).zoneAdaptationMoveRatio ∧
    0 ≤ (rateSummary zeroCounters).avgInjectionTokens :=
  rate_bounds_amended zeroCounters (by norm_num [zeroCounters]) (by norm_num [zeroCounters])
    (by norm_num [zeroCounters]) (by norm_num [zeroCounters]) (by norm_num [zeroCounters])
    (by norm_num [zeroCounters]) (by norm_num [zeroCounters]) (by norm_num [zeroCounters])
    (by norm_num [zeroCounters])
